import Mathlib

/-!
Shallow embedding of the `rlm-doc-explorer` backend
(`src/backend/main.py`, `src/backend/rlm_pipeline.py`,
`src/backend/ws_handler.py`) and proofs about it.

Modelling conventions:
* Python strings are Lean `String`s; `len` is `String.length` and slicing
  `t[:500]` is `List.take` on the character list (both count code points,
  as Python does).
* `str.strip()` is modelled by `pyStrip` over the ASCII whitespace
  characters Python strips (unicode whitespace is out of scope).
* Wall-clock readings (`time.time()`) are modelled as two integer
  centisecond readings, so that `round(elapsed, 2)` is exact and
  `elapsed_time_s` is the integer difference `t1 - t0`.
* Fallible Python code returns `Except`: a raised exception is
  `Except.error msg` carrying `str(exc)`.
* The outcome of external effects (the `shutil.which`/file-system probes of
  `_ensure_deno_available`, the environment variables, the HTTP ListModels
  response, and the dspy engine call) are inputs of the model; the order of
  the observable effects is recorded as a `List QEvent` trace.
* A Python dict used as a record becomes a structure; a dict key that may
  be absent (the `error` key of a query result) becomes an `Option`.
-/

/-- Characters stripped by Python's `str.strip()` (ASCII fragment). -/
def pyIsSpace (c : Char) : Bool :=
  c = ' ' || c = '\t' || c = '\n' || c = '\r' || c = '\x0b' || c = '\x0c'

/-- Python `s.strip()` on the ASCII whitespace fragment. -/
def pyStrip (s : String) : String :=
  String.mk (((s.toList.dropWhile pyIsSpace).reverse.dropWhile pyIsSpace).reverse)

/-- Auxiliary for `strContains`: does `pat` occur starting at some suffix? -/
def containsFrom (pat : List Char) : List Char → Bool
  | [] => pat.isEmpty
  | c :: rest => pat.isPrefixOf (c :: rest) || containsFrom pat rest

/-- Python `pat in s` substring test. -/
def strContains (s pat : String) : Bool :=
  containsFrom pat.toList s.toList

instance {ε α : Type} [DecidableEq ε] [DecidableEq α] : DecidableEq (Except ε α)
  | Except.ok a, Except.ok b =>
      if h : a = b then isTrue (by rw [h])
      else isFalse (fun hc => h (Except.ok.inj hc))
  | Except.ok _, Except.error _ => isFalse (fun hc => Except.noConfusion hc)
  | Except.error _, Except.ok _ => isFalse (fun hc => Except.noConfusion hc)
  | Except.error a, Except.error b =>
      if h : a = b then isTrue (by rw [h])
      else isFalse (fun hc => h (Except.error.inj hc))

/-- Python `s[:n]` (slice of the first `n` code points). -/
def pySlice (s : String) (n : Nat) : String :=
  String.mk (s.toList.take n)

/-! ### rlm_pipeline.py: data shapes -/

/-- One normalized trajectory step, the dict
`{"iteration": i+1, "reasoning": ..., "code": ..., "output": ...}`
built in `query_document`. -/
structure Step where
  iteration : Nat
  reasoning : String
  code : String
  output : String
  deriving DecidableEq, Repr

/-- One entry of the raw `result.trajectory` list the engine returns: a dict
(whose `reasoning`/`code`/`output` values are read via `.get(key, "")`) or any
non-dict Python value. -/
inductive RawEntry where
  | dict (reasoning code output : String)
  | nondict
  deriving DecidableEq, Repr

/-- One entry of `lm.history[history_before:]`, as traversed by the token
extraction loop in `query_document`. -/
inductive HistEntry where
  | dictUsage (total_tokens : Nat)
  | dictNoUsage
  | respUsage (total_tokens : Nat)
  | other
  deriving DecidableEq, Repr

/-- The dict returned by `query_document`. The `error` key is only present
on the exception branch, hence `Option`. -/
structure QueryResult where
  answer : String
  trajectory : List Step
  elapsed_time_s : Int
  iteration_count : Nat
  sub_llm_calls : Nat
  total_tokens : Nat
  depth : Nat
  error : Option String
  deriving DecidableEq, Repr

/-- Outcome of the single `rlm(context=..., question=...)` engine call:
either it returns a result object (answer, raw trajectory, and the new
`lm.history` entries) or it raises. -/
inductive EngineOutcome where
  | ok (answer : String) (raw : List RawEntry) (history : List HistEntry)
  | raises (msg : String)
  deriving DecidableEq, Repr

/-- The two `time.time()` readings taken around the engine call, in
centiseconds. -/
structure Clock where
  t0 : Int
  t1 : Int
  deriving DecidableEq, Repr

/-- Observable external effects of `query_document`, in order. -/
inductive QEvent where
  | deno_check
  | list_models_http
  | engine_call
  deriving DecidableEq, Repr

/-! ### rlm_pipeline.py: deno resolution -/

/-- Outcomes of the file-system and `PATH` probes made by
`_ensure_deno_available`, together with the `DENO_BIN` environment
variable. -/
structure DenoEnv where
  /-- `shutil.which("deno")` on the original `PATH`. -/
  which_deno : Bool
  /-- `os.environ.get("DENO_BIN", "")`. -/
  deno_bin : String
  /-- `Path(DENO_BIN).expanduser().is_file()`. -/
  deno_bin_is_file : Bool
  /-- `shutil.which("deno")` after prepending the `DENO_BIN` parent dir. -/
  which_after_deno_bin : Bool
  /-- `(Path.home() / ".deno" / "bin" / "deno").is_file()`. -/
  home_deno_is_file : Bool
  /-- `shutil.which("deno")` after prepending `~/.deno/bin`. -/
  which_after_home : Bool
  deriving DecidableEq, Repr

/-- The `RuntimeError` message of `_ensure_deno_available`. -/
def denoNotFoundMsg : String :=
  "Deno executable not found. Install Deno and ensure it is on PATH, or set DENO_BIN to the absolute deno path."

/-- The `for candidate in candidates` loop of `_ensure_deno_available`:
each candidate is `(candidate.is_file(), shutil.which("deno") after that
candidate's dir is prepended to PATH)`; the loop returns as soon as a
candidate is a file and the subsequent `which` succeeds. -/
def denoCandidateLoop : List (Bool × Bool) → Bool
  | [] => false
  | (is_file, which_after) :: rest =>
      if is_file && which_after then true else denoCandidateLoop rest

/-- The `candidates` list of `_ensure_deno_available`: the `DENO_BIN` path
(when the environment variable is non-blank) followed by
`~/.deno/bin/deno`. -/
def denoCandidates (e : DenoEnv) : List (Bool × Bool) :=
  (if pyStrip e.deno_bin ≠ "" then
    [(e.deno_bin_is_file, e.which_after_deno_bin)] else [])
  ++ [(e.home_deno_is_file, e.which_after_home)]

/-- Embedding of `_ensure_deno_available` (rlm_pipeline.py lines 111-132).
Raises `RuntimeError` when deno is on neither the `PATH` nor resolvable
through `DENO_BIN` or `~/.deno/bin/deno`. -/
def ensure_deno_available (e : DenoEnv) : Except String Unit :=
  if e.which_deno then Except.ok ()
  else if denoCandidateLoop (denoCandidates e) then Except.ok ()
  else Except.error denoNotFoundMsg

/-! ### rlm_pipeline.py: model resolution -/

def DEFAULT_GEMINI_MODEL : String := "gemini-3-flash-preview"

def GEMINI_MODEL_FALLBACKS : List String :=
  ["gemini-2.5-flash", "gemini-flash-latest"]

/-- Embedding of `_normalize_model_name`. -/
def normalize_model_name (model_name : String) : String :=
  let normalized := pyStrip model_name
  if normalized = "" then ""
  else if normalized.startsWith "gemini/" then normalized
  else if normalized.startsWith "models/" then
    "gemini/" ++ normalized.drop ("models/".length)
  else "gemini/" ++ normalized

/-- Python `candidate.split("/", 1)[1]` for the candidate names (all of
which contain a slash): everything after the first `/`. -/
def afterFirstSlash (s : String) : String :=
  String.mk ((s.toList.dropWhile (fun c => c ≠ '/')).drop 1)

/-- Process environment and module state consulted by `configure_dspy` and
`_resolve_gemini_model`, plus the outcome of the ListModels HTTP request
(`_list_generate_content_models` performs `urlopen` and JSON filtering;
its result — the set of model names supporting generateContent — or its
exception is an input here). -/
structure CfgEnv where
  /-- `os.environ.get("GOOGLE_API_KEY", "")`. -/
  google_api_key : String
  /-- `os.environ.get("GEMINI_MODEL", DEFAULT_GEMINI_MODEL)` presence. -/
  gemini_model_env : Option String
  /-- Module-global `_resolved_model_name` cache. -/
  resolved_cache : Option String
  /-- Result of the `_list_generate_content_models` network call. -/
  list_models_outcome : Except String (List String)
  deriving DecidableEq, Repr

/-- The candidate accumulation loop of `_resolve_gemini_model`: keep
non-empty names, first occurrence only. -/
def dedupNonEmpty : List String → List String → List String
  | acc, [] => acc
  | acc, c :: rest =>
      if c ≠ "" && ¬ acc.contains c then dedupNonEmpty (acc ++ [c]) rest
      else dedupNonEmpty acc rest

/-- Embedding of `_resolve_gemini_model` (rlm_pipeline.py lines 69-108).
Returns the event trace (the ListModels HTTP request, when made) and the
resolved model name or the raised `ValueError` message. -/
def resolve_gemini_model (e : CfgEnv) : List QEvent × Except String String :=
  match e.resolved_cache with
  | some m => ([], Except.ok m)
  | none =>
    let configured := normalize_model_name (e.gemini_model_env.getD DEFAULT_GEMINI_MODEL)
    let candidates := dedupNonEmpty []
      (configured :: normalize_model_name DEFAULT_GEMINI_MODEL ::
        GEMINI_MODEL_FALLBACKS.map normalize_model_name)
    match e.list_models_outcome with
    | Except.error _ =>
        ([QEvent.list_models_http], Except.ok (candidates.headD ""))
    | Except.ok available =>
        match candidates.find? (fun c => available.contains (afterFirstSlash c)) with
        | some c => ([QEvent.list_models_http], Except.ok c)
        | none =>
            ([QEvent.list_models_http],
             Except.error
               ("No compatible Gemini model found for generateContent. Tried: "
                ++ String.intercalate ", " candidates
                ++ ". Set GEMINI_MODEL to an available model name."))

/-- Embedding of `configure_dspy` (rlm_pipeline.py lines 135-142). The
returned string stands for the configured `dspy.LM` handle. -/
def configure_dspy (e : CfgEnv) : List QEvent × Except String String :=
  if e.google_api_key = "" then ([], Except.error "GOOGLE_API_KEY not set")
  else resolve_gemini_model e

/-! ### rlm_pipeline.py: query_document -/

/-- The trajectory-normalization loop of `query_document` (lines 179-190):
`for i, entry in enumerate(raw_trajectory): if isinstance(entry, dict):
trajectory.append({"iteration": i + 1, ...})`. The first argument is the
running `enumerate` index. -/
def normalizeGo : Nat → List RawEntry → List Step
  | _, [] => []
  | i, RawEntry.dict r c o :: rest =>
      { iteration := i + 1, reasoning := r, code := c, output := o }
        :: normalizeGo (i + 1) rest
  | i, RawEntry.nondict :: rest => normalizeGo (i + 1) rest

/-- The normalized trajectory built from the engine's raw trajectory. -/
def normalize_trajectory (raw : List RawEntry) : List Step :=
  normalizeGo 0 raw

/-- Token contribution of one `lm.history` entry in the extraction loop. -/
def histTokens : HistEntry → Nat
  | HistEntry.dictUsage n => n
  | HistEntry.dictNoUsage => 0
  | HistEntry.respUsage n => n
  | HistEntry.other => 0

/-- `total_tokens` summed over the new history entries. -/
def totalTokens (history : List HistEntry) : Nat :=
  (history.map histTokens).sum

/-- `sub_llm_calls`: trajectory steps whose `code` contains `"llm_query"`. -/
def subLlmCalls (trajectory : List Step) : Nat :=
  (trajectory.filter (fun t => strContains t.code "llm_query")).length

/-- Embedding of `query_document` (rlm_pipeline.py lines 145-237). Inputs:
the deno probes, the configuration environment, the engine-call outcome,
the clock readings, and the two actual parameters `doc_text`/`question`.
Output: the event trace and either the returned dict or a propagated
exception (deno missing / `GOOGLE_API_KEY` unset / no compatible model all
escape, since only the engine call sits inside the `try`). -/
def query_document (env : DenoEnv) (cfg : CfgEnv) (engine : EngineOutcome)
    (clock : Clock) (_doc_text _question : String) :
    List QEvent × Except String QueryResult :=
  match ensure_deno_available env with
  | Except.error m => ([QEvent.deno_check], Except.error m)
  | Except.ok _ =>
    match configure_dspy cfg with
    | (cfgEvents, Except.error m) =>
        (QEvent.deno_check :: cfgEvents, Except.error m)
    | (cfgEvents, Except.ok _lm) =>
      match engine with
      | EngineOutcome.raises m =>
          (QEvent.deno_check :: cfgEvents ++ [QEvent.engine_call],
           Except.ok
             { answer := "Error: " ++ m
               trajectory := []
               elapsed_time_s := clock.t1 - clock.t0
               iteration_count := 0
               sub_llm_calls := 0
               total_tokens := 0
               depth := 1
               error := some m })
      | EngineOutcome.ok ans raw history =>
          (QEvent.deno_check :: cfgEvents ++ [QEvent.engine_call],
           Except.ok
             { answer := ans
               trajectory := normalize_trajectory raw
               elapsed_time_s := clock.t1 - clock.t0
               iteration_count := (normalize_trajectory raw).length
               sub_llm_calls := subLlmCalls (normalize_trajectory raw)
               total_tokens := totalTokens history
               depth := 1
               error := none })

/-! ### main.py: document store and HTTP endpoints -/

/-- A raised `fastapi.HTTPException`. -/
structure HTTPException where
  status_code : Nat
  detail : String
  deriving DecidableEq, Repr

/-- A stored document record (the dict put into `documents`). -/
structure Document where
  id : String
  filename : String
  text : String
  text_length : Nat
  preview : String
  deriving DecidableEq, Repr

/-- The module-global `documents` dict, as an association list whose first
binding for a key is the current one. -/
abbrev DocStore := List (String × Document)

/-- Python `documents.get(doc_id)`. -/
def DocStore.get? (d : DocStore) (doc_id : String) : Option Document :=
  List.lookup doc_id d

/-- Python `documents[doc_id] = record`. -/
def DocStore.insert (d : DocStore) (doc_id : String) (doc : Document) : DocStore :=
  (doc_id, doc) :: d

/-- Python `del documents[doc_id]` (the key is removed). -/
def DocStore.erase (d : DocStore) (doc_id : String) : DocStore :=
  d.filter (fun p => p.1 ≠ doc_id)

/-- The JSON body returned by `upload_document`. -/
structure UploadResponse where
  id : String
  filename : String
  text_length : Nat
  preview : String
  deriving DecidableEq, Repr

/-- Embedding of `upload_document` (main.py lines 134-160). Inputs: the
uploaded filename, the outcome of `extract_text` on the uploaded bytes
(an `HTTPException` for unsupported/unparseable/badly-encoded files), the
fresh `str(uuid.uuid4())` token, and the current store. Output: the
response or raised exception, and the store after the call. -/
def upload_document (filename : String)
    (extract_outcome : Except HTTPException String)
    (fresh_id : String) (docs : DocStore) :
    Except HTTPException UploadResponse × DocStore :=
  if filename = "" then
    (Except.error ⟨400, "Uploaded file must include a filename."⟩, docs)
  else
    match extract_outcome with
    | Except.error e => (Except.error e, docs)
    | Except.ok extracted_text =>
      if pyStrip extracted_text = "" then
        (Except.error { status_code := 400, detail := "Extracted text is empty." },
         docs)
      else
        let preview := pySlice extracted_text 500
        let record : Document :=
          { id := fresh_id, filename := filename, text := extracted_text,
            text_length := extracted_text.length, preview := preview }
        (Except.ok
           { id := fresh_id, filename := filename,
             text_length := extracted_text.length, preview := preview },
         docs.insert fresh_id record)

/-- The JSON body returned by `get_document`. -/
structure GetDocumentResponse where
  id : String
  filename : String
  text_length : Nat
  preview : String
  deriving DecidableEq, Repr

/-- Embedding of `get_document` (main.py lines 184-195). -/
def get_document (docs : DocStore) (doc_id : String) :
    Except HTTPException GetDocumentResponse :=
  match docs.get? doc_id with
  | none => Except.error { status_code := 404, detail := "Document not found." }
  | some document =>
      Except.ok
        { id := document.id, filename := document.filename,
          text_length := document.text_length, preview := document.preview }

/-- Embedding of `delete_document` (main.py lines 175-181): the response
or raised exception, and the store after the call. -/
def delete_document (docs : DocStore) (doc_id : String) :
    Except HTTPException String × DocStore :=
  if (docs.get? doc_id).isNone then
    (Except.error { status_code := 404, detail := "Document not found." }, docs)
  else
    (Except.ok "deleted", docs.erase doc_id)

/-- The pydantic `QueryRequest` body of `POST /api/query`. -/
structure QueryRequest where
  document_id : String
  question : String
  api_key : String
  model : String
  deriving DecidableEq, Repr

/-- Number of positional parameters of `rlm_pipeline.query_document`
(`def query_document(doc_text: str, question: str)`). -/
def query_document_arity : Nat := 2

/-- A dynamic Python call of `rlm_pipeline.query_document` with a list of
positional arguments. Python checks arity at call time: with any number of
arguments other than two, a `TypeError` is raised before the function body
runs; with two, the body runs. -/
def call_query_document (env : DenoEnv) (cfg : CfgEnv) (engine : EngineOutcome)
    (clock : Clock) (args : List String) : Except String QueryResult :=
  match args with
  | [doc_text, question] => (query_document env cfg engine clock doc_text question).2
  | _ =>
      Except.error
        ("query_document() takes " ++ toString query_document_arity
          ++ " positional arguments but " ++ toString args.length ++ " were given")

/-- Embedding of `query_document_endpoint` (main.py lines 198-225). The
second component records the argument lists of the `query_document` call
expressions the endpoint evaluated (empty when validation fails first).
The call site passes four arguments —
`query_document(str(document.get("text", "")), request.question,
request.model, request.api_key)` — and any exception escaping the call is
converted to a 500 whose detail embeds the message. -/
def query_document_endpoint (env : DenoEnv) (cfg : CfgEnv)
    (engine : EngineOutcome) (clock : Clock) (docs : DocStore)
    (request : QueryRequest) :
    Except HTTPException QueryResult × List (List String) :=
  if pyStrip request.question = "" then
    (Except.error ⟨400, "Question cannot be empty."⟩, [])
  else if pyStrip request.api_key = "" then
    (Except.error
       ⟨400, "API key is required. Please configure your API key in Settings."⟩,
     [])
  else if pyStrip request.model = "" then
    (Except.error
       ⟨400, "Model is required. Please select a model in Settings."⟩,
     [])
  else
    match docs.get? request.document_id with
    | none =>
        (Except.error ⟨404, "Document not found."⟩, [])
    | some document =>
        let args := [document.text, request.question, request.model, request.api_key]
        match call_query_document env cfg engine clock args with
        | Except.ok r => (Except.ok r, [args])
        | Except.error e =>
            (Except.error ⟨500, "Query failed: " ++ e⟩, [args])

/-! ### ws_handler.py: the streaming query channel -/

/-- The metrics dict of the terminal `result` message. -/
structure WsMetrics where
  tokens : Nat
  time_s : Int
  iterations : Nat
  depth : Nat
  sub_llm_calls : Nat
  deriving DecidableEq, Repr

/-- One JSON message sent over the WebSocket, tagged by its `type`. -/
inductive WsMsg where
  | status (message : String)
  | iteration (step : Step)
  | result (answer : String) (metrics : WsMetrics)
  | error (message : String)
  deriving DecidableEq, Repr

/-- The `status` message text sent before invoking the pipeline. -/
def wsStatusMsg : String := "RLM is exploring your document..."

/-- Outcome of `await websocket.receive_json()` followed by the two
`str(data.get(..., "")).strip()` reads: either the session's one request
message parsed into its raw `document_id`/`question` fields (before
stripping), or an exception (invalid JSON, or `.get` on a non-dict
payload) whose message is caught by the handler's generic `except`. -/
inductive WsReceive where
  | got (document_id question : String)
  | failed (msg : String)
  deriving DecidableEq, Repr

/-- Embedding of `handle_query_ws` (ws_handler.py lines 13-80): the list of
messages sent to the client over one session, in order. The transport is
modelled as reliable: the client stays connected and every send succeeds
(the `WebSocketDisconnect` branch and the secondary send failure in the
generic handler are silent and send nothing). The worker-pool call
`loop.run_in_executor(executor, query_document, text, question)` passes
two arguments, matching `query_document`'s arity; an exception it
propagates is caught by the generic `except`, which sends one `error`
message with the exception text. -/
def handle_query_ws (recv : WsReceive) (docs : DocStore) (env : DenoEnv)
    (cfg : CfgEnv) (engine : EngineOutcome) (clock : Clock) : List WsMsg :=
  match recv with
  | WsReceive.failed e => [WsMsg.error e]
  | WsReceive.got raw_id raw_q =>
    if pyStrip raw_id = "" || pyStrip raw_q = "" then
      [WsMsg.error "Both document_id and question are required"]
    else
      match docs.get? (pyStrip raw_id) with
      | none => [WsMsg.error "Document not found"]
      | some document =>
        match (query_document env cfg engine clock document.text (pyStrip raw_q)).2 with
        | Except.error e => [WsMsg.status wsStatusMsg, WsMsg.error e]
        | Except.ok r =>
            WsMsg.status wsStatusMsg
              :: r.trajectory.map WsMsg.iteration
              ++ [WsMsg.result r.answer
                    { tokens := r.total_tokens, time_s := r.elapsed_time_s,
                      iterations := r.iteration_count, depth := r.depth,
                      sub_llm_calls := r.sub_llm_calls }]

/-! ### Shared sample values for witnesses -/

/-- A deno environment in which `shutil.which("deno")` succeeds. -/
def denoOkEnv : DenoEnv :=
  { which_deno := true, deno_bin := "", deno_bin_is_file := false,
    which_after_deno_bin := false, home_deno_is_file := false,
    which_after_home := false }

/-- A deno environment in which no probe locates deno. -/
def denoMissingEnv : DenoEnv :=
  { which_deno := false, deno_bin := "", deno_bin_is_file := false,
    which_after_deno_bin := false, home_deno_is_file := false,
    which_after_home := false }

/-- A configuration with the model name already cached, so `configure_dspy`
succeeds without a network call. -/
def cachedCfg : CfgEnv :=
  { google_api_key := "key", gemini_model_env := none,
    resolved_cache := some "gemini/gemini-3-flash-preview",
    list_models_outcome := Except.ok [] }

/-- A sample stored document. -/
def sampleDoc : Document :=
  { id := "d1", filename := "a.txt", text := "Hello world",
    text_length := 11, preview := "Hello world" }

/-- A store holding `sampleDoc` under id `"d1"`. -/
def sampleStore : DocStore := [("d1", sampleDoc)]

/-- A concrete Query Result used by the C10 witness. -/
def c10Sample : QueryResult :=
  { answer := "ans",
    trajectory := [{ iteration := 1, reasoning := "r", code := "llm_query(x)", output := "o" }],
    elapsed_time_s := 5, iteration_count := 1, sub_llm_calls := 1,
    total_tokens := 0, depth := 1, error := none }

/-- Specification-side characterization of trajectory normalization: keep
exactly the dict-shaped entries, each tagged with its 1-based position in
the raw trajectory. -/
def trajectoryStepsSpec (raw : List RawEntry) : List Step :=
  raw.enum.filterMap fun p =>
    match p.2 with
    | RawEntry.dict r c o =>
        some { iteration := p.1 + 1, reasoning := r, code := c, output := o }
    | RawEntry.nondict => none

/-! ### Helper lemmas -/

theorem lookup_erase (doc_id : String) (d : DocStore) :
    DocStore.get? (DocStore.erase d doc_id) doc_id = none := by
  induction d with
  | nil => rfl
  | cons p rest ih =>
    obtain ⟨a, doc⟩ := p
    by_cases h : a = doc_id
    · simpa [DocStore.erase, List.filter_cons, h] using ih
    · have hne : (doc_id == a) = false := by
        simp [beq_iff_eq]
        exact fun hc => h hc.symm
      simpa [DocStore.erase, DocStore.get?, List.filter_cons, List.lookup, h, hne]
        using ih

theorem normalizeGo_eq_enumFrom (raw : List RawEntry) :
    ∀ i, normalizeGo i raw
      = (List.enumFrom i raw).filterMap fun p =>
          match p.2 with
          | RawEntry.dict r c o =>
              some { iteration := p.1 + 1, reasoning := r, code := c, output := o }
          | RawEntry.nondict => none := by
  induction raw with
  | nil => intro i; rfl
  | cons e rest ih =>
    intro i
    cases e with
    | dict r c o => simp [normalizeGo, List.enumFrom, List.filterMap, ih]
    | nondict => simp [normalizeGo, List.enumFrom, List.filterMap, ih]

theorem normalizeGo_iterations_all_dict (raw : List RawEntry) :
    ∀ i, (∀ e ∈ raw, e ≠ RawEntry.nondict) →
      (normalizeGo i raw).map Step.iteration = List.range' (i + 1) raw.length := by
  induction raw with
  | nil => intro i _; rfl
  | cons e rest ih =>
    intro i h
    cases e with
    | dict r c o =>
      have hrest : ∀ x ∈ rest, x ≠ RawEntry.nondict := fun x hx => h x (by simp [hx])
      simp [normalizeGo, List.range', ih (i + 1) hrest]
    | nondict => exact absurd rfl (h RawEntry.nondict (by simp))

/-! ### Claims -/

/-- C1 (code bug witness): with a fully valid request (non-blank question,
api key and model; document present in the store), the synchronous query
endpoint evaluates `query_document(document_text, question, model,
api_key)` with four arguments, but `rlm_pipeline.query_document` accepts
only `(doc_text, question)`; the call raises `TypeError` before the Agent
Invoker's body runs, and the endpoint converts it to a 500 instead of
returning the invoker's Query Result verbatim. -/
theorem c1_endpoint_arity_type_error :
    query_document_endpoint denoOkEnv cachedCfg (EngineOutcome.ok "fine" [] [])
        { t0 := 0, t1 := 5 } sampleStore
        { document_id := "d1", question := "What?", api_key := "key", model := "m" }
      = (Except.error
           { status_code := 500,
             detail := "Query failed: query_document() takes 2 positional arguments but 4 were given" },
         [["Hello world", "What?", "m", "key"]]) := by
  decide

/-- C2: whenever the deno check and configuration succeed and the engine
call raises an exception with message `m`, `query_document` does not
propagate it: it returns a Query Result with empty trajectory, zero
`iteration_count`/`sub_llm_calls`/`total_tokens`, answer prefixed
`"Error: "`, `error` carrying the message, and (for monotone clock
readings) non-negative elapsed time. -/
theorem c2_engine_exception_absorbed (env : DenoEnv) (cfg : CfgEnv)
    (clock : Clock) (doc_text question m lm : String)
    (hdeno : ensure_deno_available env = Except.ok ())
    (hcfg : (configure_dspy cfg).2 = Except.ok lm)
    (hclock : clock.t0 ≤ clock.t1) :
    ∃ r : QueryResult,
      (query_document env cfg (EngineOutcome.raises m) clock doc_text question).2
          = Except.ok r
        ∧ r.trajectory = []
        ∧ r.iteration_count = 0
        ∧ r.sub_llm_calls = 0
        ∧ r.total_tokens = 0
        ∧ r.answer = "Error: " ++ m
        ∧ r.error = some m
        ∧ r.error ≠ none
        ∧ 0 ≤ r.elapsed_time_s := by
  have hq : (query_document env cfg (EngineOutcome.raises m) clock doc_text question).2
      = Except.ok
          { answer := "Error: " ++ m, trajectory := [],
            elapsed_time_s := clock.t1 - clock.t0, iteration_count := 0,
            sub_llm_calls := 0, total_tokens := 0, depth := 1, error := some m } := by
    unfold query_document
    rw [hdeno]
    rcases hcc : configure_dspy cfg with ⟨ev, out⟩
    rw [hcc] at hcfg
    simp only [] at hcfg
    rw [hcfg]
  exact ⟨_, hq, rfl, rfl, rfl, rfl, rfl, rfl, by simp,
         by show (0 : Int) ≤ clock.t1 - clock.t0; omega⟩

/-- C2 witness at concrete inputs. -/
theorem c2_engine_exception_absorbed_witness :
    ensure_deno_available denoOkEnv = Except.ok ()
      ∧ (configure_dspy cachedCfg).2 = Except.ok "gemini/gemini-3-flash-preview"
      ∧ ((⟨0, 5⟩ : Clock).t0 ≤ (⟨0, 5⟩ : Clock).t1)
      ∧ ∃ r : QueryResult,
          (query_document denoOkEnv cachedCfg (EngineOutcome.raises "boom")
              ⟨0, 5⟩ "text" "q").2 = Except.ok r
            ∧ r.trajectory = []
            ∧ r.iteration_count = 0
            ∧ r.sub_llm_calls = 0
            ∧ r.total_tokens = 0
            ∧ r.answer = "Error: " ++ "boom"
            ∧ r.error = some "boom"
            ∧ r.error ≠ none
            ∧ 0 ≤ r.elapsed_time_s :=
  ⟨by decide, by decide, by decide,
   c2_engine_exception_absorbed denoOkEnv cachedCfg ⟨0, 5⟩ "text" "q" "boom"
     "gemini/gemini-3-flash-preview" (by decide) (by decide) (by decide)⟩

/-- C10: every Query Result actually returned by `query_document` (success
or absorbed engine failure) has `iteration_count` equal to the length of
its trajectory, and `sub_llm_calls` at most `iteration_count`. -/
theorem c10_result_invariants (env : DenoEnv) (cfg : CfgEnv)
    (engine : EngineOutcome) (clock : Clock) (doc_text question : String)
    (r : QueryResult)
    (h : (query_document env cfg engine clock doc_text question).2 = Except.ok r) :
    r.iteration_count = r.trajectory.length
      ∧ r.sub_llm_calls ≤ r.iteration_count := by
  unfold query_document at h
  split at h
  · exact absurd h (by simp)
  · split at h
    · exact absurd h (by simp)
    · split at h
      · simp only [Except.ok.injEq] at h
        subst h
        exact ⟨rfl, Nat.le_refl 0⟩
      · simp only [Except.ok.injEq] at h
        subst h
        refine ⟨rfl, ?_⟩
        simpa [subLlmCalls] using
          List.length_filter_le (fun t => strContains t.code "llm_query")
            (normalize_trajectory _)

/-- C10 witness at concrete inputs (a successful engine call with one
dict-shaped and one dropped trajectory entry). -/
theorem c10_result_invariants_witness :
    (query_document denoOkEnv cachedCfg
        (EngineOutcome.ok "ans" [RawEntry.dict "r" "llm_query(x)" "o", RawEntry.nondict] [])
        ⟨0, 5⟩ "text" "q").2 = Except.ok c10Sample
    ∧ (c10Sample.iteration_count = c10Sample.trajectory.length
        ∧ c10Sample.sub_llm_calls ≤ c10Sample.iteration_count) :=
  ⟨by decide,
   c10_result_invariants denoOkEnv cachedCfg
     (EngineOutcome.ok "ans" [RawEntry.dict "r" "llm_query(x)" "o", RawEntry.nondict] [])
     ⟨0, 5⟩ "text" "q" c10Sample (by decide)⟩

/-- C4 counterexample: for the raw trajectory [non-dict, dict], the Agent
Invoker's normalized trajectory retains the single dict-shaped entry but
tags it with iteration number 2, so the first retained step does not carry
iteration number 1 and the numbering is not sequential over retained
steps. -/
theorem c4_iteration_numbering_counterexample :
    Except.map (fun r : QueryResult => r.trajectory.map Step.iteration)
        (query_document denoOkEnv cachedCfg
          (EngineOutcome.ok "a" [RawEntry.nondict, RawEntry.dict "r" "c" "o"] [])
          ⟨0, 0⟩ "t" "q").2
      = Except.ok [2]
    ∧ ([2] : List Nat) ≠ [1] := by decide

/-- C4 amended: the normalized trajectory contains exactly the dict-shaped
entries of the raw trajectory (non-dict entries are dropped without
raising), and each retained step's iteration number is its 1-based
position in the raw trajectory; consequently the numbering is 1-based and
sequential (the k-th retained step carries k) whenever every raw entry is
dict-shaped. -/
theorem c4_trajectory_normalization (raw : List RawEntry) :
    normalize_trajectory raw = trajectoryStepsSpec raw
    ∧ ((∀ e ∈ raw, e ≠ RawEntry.nondict) →
        (normalize_trajectory raw).map Step.iteration = List.range' 1 raw.length) := by
  constructor
  · simpa [normalize_trajectory, trajectoryStepsSpec, List.enum]
      using normalizeGo_eq_enumFrom raw 0
  · intro h
    simpa [normalize_trajectory] using normalizeGo_iterations_all_dict raw 0 h

/-- C4 amended witness: an all-dict raw trajectory is retained entirely
with sequential 1-based iteration numbers. -/
theorem c4_trajectory_normalization_witness :
    normalize_trajectory [RawEntry.dict "a" "b" "c", RawEntry.dict "d" "e" "f"]
        = trajectoryStepsSpec [RawEntry.dict "a" "b" "c", RawEntry.dict "d" "e" "f"]
    ∧ (normalize_trajectory [RawEntry.dict "a" "b" "c", RawEntry.dict "d" "e" "f"]).map
          Step.iteration
        = List.range' 1 [RawEntry.dict "a" "b" "c", RawEntry.dict "d" "e" "f"].length :=
  ⟨(c4_trajectory_normalization [RawEntry.dict "a" "b" "c", RawEntry.dict "d" "e" "f"]).1,
   (c4_trajectory_normalization [RawEntry.dict "a" "b" "c", RawEntry.dict "d" "e" "f"]).2
     (by decide)⟩

/-- C5: the synchronous query endpoint validates in the order question,
api key, model, document lookup; the first failing check determines the
4xx response (400/400/400/404 with the specific detail message), and for a
blank question the endpoint returns 400 without evaluating any
`query_document` call (the recorded invocation list is empty). -/
theorem c5_endpoint_validation_order (env : DenoEnv) (cfg : CfgEnv)
    (engine : EngineOutcome) (clock : Clock) (docs : DocStore)
    (request : QueryRequest) :
    (pyStrip request.question = "" →
      query_document_endpoint env cfg engine clock docs request
        = (Except.error ⟨400, "Question cannot be empty."⟩, []))
    ∧ (pyStrip request.question ≠ "" → pyStrip request.api_key = "" →
      query_document_endpoint env cfg engine clock docs request
        = (Except.error
             ⟨400, "API key is required. Please configure your API key in Settings."⟩,
           []))
    ∧ (pyStrip request.question ≠ "" → pyStrip request.api_key ≠ "" →
        pyStrip request.model = "" →
      query_document_endpoint env cfg engine clock docs request
        = (Except.error
             ⟨400, "Model is required. Please select a model in Settings."⟩,
           []))
    ∧ (pyStrip request.question ≠ "" → pyStrip request.api_key ≠ "" →
        pyStrip request.model ≠ "" → docs.get? request.document_id = none →
      query_document_endpoint env cfg engine clock docs request
        = (Except.error ⟨404, "Document not found."⟩, [])) := by
  refine ⟨fun h1 => ?_, fun h1 h2 => ?_, fun h1 h2 h3 => ?_, fun h1 h2 h3 h4 => ?_⟩
  · simp [query_document_endpoint, h1]
  · simp [query_document_endpoint, h1, h2]
  · simp [query_document_endpoint, h1, h2, h3]
  · simp [query_document_endpoint, h1, h2, h3, h4]

/-- C5 witness: a request whose question is whitespace-only yields the 400
with no agent invocation, on a store that does hold the document. -/
theorem c5_endpoint_validation_order_witness :
    pyStrip "  " = ""
    ∧ query_document_endpoint denoOkEnv cachedCfg (EngineOutcome.ok "a" [] [])
          ⟨0, 0⟩ sampleStore
          { document_id := "d1", question := "  ", api_key := "k", model := "m" }
        = (Except.error ⟨400, "Question cannot be empty."⟩, []) :=
  ⟨by decide,
   (c5_endpoint_validation_order denoOkEnv cachedCfg (EngineOutcome.ok "a" [] [])
      ⟨0, 0⟩ sampleStore
      { document_id := "d1", question := "  ", api_key := "k", model := "m" }).1
     (by decide)⟩

/-- C6: an upload whose extracted text is empty or whitespace-only fails
with the 400 `"Extracted text is empty."` error and returns the store
unchanged: no entry is inserted before the exception. -/
theorem c6_empty_text_upload_rejected (filename fresh_id t : String)
    (docs : DocStore) (hfn : filename ≠ "") (ht : pyStrip t = "") :
    upload_document filename (Except.ok t) fresh_id docs
      = (Except.error ⟨400, "Extracted text is empty."⟩, docs) := by
  simp [upload_document, hfn, ht]

/-- C6 witness: uploading whitespace-only extracted text into the sample
store fails with 400 and leaves the store as it was. -/
theorem c6_empty_text_upload_rejected_witness :
    ("a.txt" : String) ≠ ""
    ∧ pyStrip " \n\t " = ""
    ∧ upload_document "a.txt" (Except.ok " \n\t ") "fresh" sampleStore
        = (Except.error ⟨400, "Extracted text is empty."⟩, sampleStore) :=
  ⟨by decide, by decide,
   c6_empty_text_upload_rejected "a.txt" "fresh" " \n\t " sampleStore
     (by decide) (by decide)⟩

/-- C7: an id that is absent from the store (never created, or just
deleted — the first conjunct shows deletion always removes the id from the
resulting store) makes every dependent operation fail with a not-found
signal: detail fetch 404, delete 404, synchronous query (with otherwise
valid fields) 404, and the streaming channel a single
`"Document not found"` error message. -/
theorem c7_absent_id_not_found (docs : DocStore) (doc_id : String)
    (habs : docs.get? doc_id = none) :
    (∀ d : DocStore, DocStore.get? (delete_document d doc_id).2 doc_id = none)
    ∧ get_document docs doc_id = Except.error ⟨404, "Document not found."⟩
    ∧ (delete_document docs doc_id).1 = Except.error ⟨404, "Document not found."⟩
    ∧ (∀ (env : DenoEnv) (cfg : CfgEnv) (engine : EngineOutcome) (clock : Clock)
        (q k m : String), pyStrip q ≠ "" → pyStrip k ≠ "" → pyStrip m ≠ "" →
        (query_document_endpoint env cfg engine clock docs
            { document_id := doc_id, question := q, api_key := k, model := m }).1
          = Except.error ⟨404, "Document not found."⟩)
    ∧ (∀ (env : DenoEnv) (cfg : CfgEnv) (engine : EngineOutcome) (clock : Clock)
        (q : String), doc_id ≠ "" → pyStrip doc_id = doc_id → pyStrip q ≠ "" →
        handle_query_ws (WsReceive.got doc_id q) docs env cfg engine clock
          = [WsMsg.error "Document not found"]) := by
  refine ⟨fun d => ?_, ?_, ?_, fun env cfg engine clock q k m h1 h2 h3 => ?_,
          fun env cfg engine clock q hid hstrip hq => ?_⟩
  · unfold delete_document
    by_cases hd : (DocStore.get? d doc_id).isNone
    · simpa [hd] using Option.isNone_iff_eq_none.mp hd
    · simpa [hd] using lookup_erase doc_id d
  · simp [get_document, habs]
  · simp [delete_document, habs]
  · simp [query_document_endpoint, h1, h2, h3, habs]
  · simp [handle_query_ws, hstrip, hid, hq, habs]

/-- C7 witness: on the empty store, id `"missing"` is absent and all four
dependent operations fail with the not-found signal. -/
theorem c7_absent_id_not_found_witness :
    DocStore.get? ([] : DocStore) "missing" = none
    ∧ get_document ([] : DocStore) "missing"
        = Except.error ⟨404, "Document not found."⟩
    ∧ (delete_document ([] : DocStore) "missing").1
        = Except.error ⟨404, "Document not found."⟩
    ∧ (query_document_endpoint denoOkEnv cachedCfg (EngineOutcome.ok "a" [] [])
          ⟨0, 0⟩ ([] : DocStore)
          { document_id := "missing", question := "q", api_key := "k", model := "m" }).1
        = Except.error ⟨404, "Document not found."⟩
    ∧ handle_query_ws (WsReceive.got "missing" "q") ([] : DocStore) denoOkEnv
          cachedCfg (EngineOutcome.ok "a" [] []) ⟨0, 0⟩
        = [WsMsg.error "Document not found"] := by
  have h := c7_absent_id_not_found ([] : DocStore) "missing" (by decide)
  exact ⟨by decide, h.2.1, h.2.2.1,
         h.2.2.2.1 denoOkEnv cachedCfg (EngineOutcome.ok "a" [] []) ⟨0, 0⟩
           "q" "k" "m" (by decide) (by decide) (by decide),
         h.2.2.2.2 denoOkEnv cachedCfg (EngineOutcome.ok "a" [] []) ⟨0, 0⟩
           "q" (by decide) (by decide) (by decide)⟩

/-- C8: a successful upload of extracted text `t` followed by a detail
fetch of the returned id yields a document whose `text_length` is exactly
`t`'s length and whose preview is the first 500 characters of `t` (all of
`t` when `t` has at most 500 characters). -/
theorem c8_upload_get_roundtrip (filename fresh_id t : String)
    (docs : DocStore) (hfn : filename ≠ "") (ht : pyStrip t ≠ "") :
    ∃ docs2 : DocStore,
      upload_document filename (Except.ok t) fresh_id docs
        = (Except.ok
             { id := fresh_id, filename := filename, text_length := t.length,
               preview := pySlice t 500 },
           docs2)
      ∧ get_document docs2 fresh_id
          = Except.ok
              { id := fresh_id, filename := filename, text_length := t.length,
                preview := pySlice t 500 }
      ∧ (t.length ≤ 500 → pySlice t 500 = t) := by
  refine ⟨DocStore.insert docs fresh_id
    { id := fresh_id, filename := filename, text := t, text_length := t.length,
      preview := pySlice t 500 }, ?_, ?_, ?_⟩
  · simp [upload_document, hfn, ht]
  · simp [get_document, DocStore.get?, DocStore.insert, List.lookup]
  · intro hlen
    show String.mk (List.take 500 t.data) = t
    rw [List.take_of_length_le hlen]

/-- C8 witness at concrete inputs: text of length 2, preview equals the
whole text. -/
theorem c8_upload_get_roundtrip_witness :
    ("a.txt" : String) ≠ ""
    ∧ pyStrip "hi" ≠ ""
    ∧ ∃ docs2 : DocStore,
        upload_document "a.txt" (Except.ok "hi") "id1" []
          = (Except.ok
               { id := "id1", filename := "a.txt", text_length := "hi".length,
                 preview := pySlice "hi" 500 },
             docs2)
        ∧ get_document docs2 "id1"
            = Except.ok
                { id := "id1", filename := "a.txt", text_length := "hi".length,
                  preview := pySlice "hi" 500 }
        ∧ ("hi".length ≤ 500 → pySlice "hi" 500 = "hi") :=
  ⟨by decide, by decide,
   c8_upload_get_roundtrip "a.txt" "id1" "hi" [] (by decide) (by decide)⟩

/-- C9: when the deno probes cannot locate the interpreter,
`query_document` fails fast by propagating the `RuntimeError`
(InterpreterUnavailable), whose message is the fixed deno-not-found text,
and its event trace contains neither the model-listing HTTP request nor
the engine call — no network call is made. -/
theorem c9_deno_missing_fails_before_network (env : DenoEnv) (cfg : CfgEnv)
    (engine : EngineOutcome) (clock : Clock) (doc_text question m : String)
    (h : ensure_deno_available env = Except.error m) :
    query_document env cfg engine clock doc_text question
        = ([QEvent.deno_check], Except.error m)
    ∧ m = denoNotFoundMsg
    ∧ QEvent.list_models_http ∉ (query_document env cfg engine clock doc_text question).1
    ∧ QEvent.engine_call ∉ (query_document env cfg engine clock doc_text question).1 := by
  have heq : query_document env cfg engine clock doc_text question
      = ([QEvent.deno_check], Except.error m) := by
    unfold query_document
    rw [h]
  have hm : m = denoNotFoundMsg := by
    unfold ensure_deno_available at h
    by_cases h1 : env.which_deno
    · simp [h1] at h
    · by_cases h2 : denoCandidateLoop (denoCandidates env)
      · simp [h1, h2] at h
      · simp [h1, h2] at h
        exact h.symm
  refine ⟨heq, hm, ?_, ?_⟩ <;> rw [heq] <;> simp

/-- C9 witness: with every probe failing, `query_document` returns only the
deno-check event and the deno-not-found error. -/
theorem c9_deno_missing_fails_before_network_witness :
    ensure_deno_available denoMissingEnv = Except.error denoNotFoundMsg
    ∧ (query_document denoMissingEnv cachedCfg (EngineOutcome.ok "a" [] [])
          ⟨0, 0⟩ "t" "q"
        = ([QEvent.deno_check], Except.error denoNotFoundMsg)
      ∧ denoNotFoundMsg = denoNotFoundMsg
      ∧ QEvent.list_models_http ∉
          (query_document denoMissingEnv cachedCfg (EngineOutcome.ok "a" [] [])
            ⟨0, 0⟩ "t" "q").1
      ∧ QEvent.engine_call ∉
          (query_document denoMissingEnv cachedCfg (EngineOutcome.ok "a" [] [])
            ⟨0, 0⟩ "t" "q").1) :=
  ⟨by decide,
   c9_deno_missing_fails_before_network denoMissingEnv cachedCfg
     (EngineOutcome.ok "a" [] []) ⟨0, 0⟩ "t" "q" denoNotFoundMsg (by decide)⟩

/-- C3: every streaming session (with the client connected and the
transport delivering messages) emits exactly one of: a single `error`
message (a receive failure, a blank `document_id`/`question`, or an
unknown id); or — when the document resolves and the pipeline call
propagates an exception — `status` then one terminal `error` carrying that
exception's message; or — when the pipeline returns a Query Result `r` —
`status`, then `r`'s trajectory mapped to `iteration` messages in
trajectory order, then exactly one terminal `result` carrying `r`'s answer
and metrics. Nothing follows the terminal message, and a request whose
`document_id` is blank after trimming gets exactly one `error` message. -/
theorem c3_ws_session_shape (recv : WsReceive) (docs : DocStore)
    (env : DenoEnv) (cfg : CfgEnv) (engine : EngineOutcome) (clock : Clock) :
    ((∃ e, handle_query_ws recv docs env cfg engine clock = [WsMsg.error e]
        ∧ (recv = WsReceive.failed e
            ∨ e = "Both document_id and question are required"
            ∨ e = "Document not found"))
      ∨ (∃ raw_id raw_q document e,
          recv = WsReceive.got raw_id raw_q
          ∧ DocStore.get? docs (pyStrip raw_id) = some document
          ∧ (query_document env cfg engine clock document.text (pyStrip raw_q)).2
              = Except.error e
          ∧ handle_query_ws recv docs env cfg engine clock
              = [WsMsg.status wsStatusMsg, WsMsg.error e])
      ∨ ∃ (raw_id raw_q : String) (document : Document) (r : QueryResult),
          recv = WsReceive.got raw_id raw_q
          ∧ DocStore.get? docs (pyStrip raw_id) = some document
          ∧ (query_document env cfg engine clock document.text (pyStrip raw_q)).2
              = Except.ok r
          ∧ handle_query_ws recv docs env cfg engine clock
              = WsMsg.status wsStatusMsg
                  :: r.trajectory.map WsMsg.iteration
                  ++ [WsMsg.result r.answer
                        { tokens := r.total_tokens, time_s := r.elapsed_time_s,
                          iterations := r.iteration_count, depth := r.depth,
                          sub_llm_calls := r.sub_llm_calls }])
    ∧ (∀ raw_id raw_q, recv = WsReceive.got raw_id raw_q → pyStrip raw_id = "" →
        handle_query_ws recv docs env cfg engine clock
          = [WsMsg.error "Both document_id and question are required"]) := by
  constructor
  · cases recv with
    | failed e => exact Or.inl ⟨e, rfl, Or.inl rfl⟩
    | got raw_id raw_q =>
      simp only [handle_query_ws]
      split
      · exact Or.inl ⟨_, rfl, Or.inr (Or.inl rfl)⟩
      · cases hdoc : DocStore.get? docs (pyStrip raw_id) with
        | none => exact Or.inl ⟨_, rfl, Or.inr (Or.inr rfl)⟩
        | some document =>
          dsimp only
          cases hq : (query_document env cfg engine clock document.text
              (pyStrip raw_q)).2 with
          | error e =>
            exact Or.inr (Or.inl ⟨raw_id, raw_q, document, e, rfl, hdoc, hq, rfl⟩)
          | ok r =>
            exact Or.inr (Or.inr ⟨raw_id, raw_q, document, r, rfl, hdoc, hq, rfl⟩)
  · intro raw_id raw_q hrecv hblank
    subst hrecv
    simp [handle_query_ws, hblank]

/-- C3 witness: a request with empty `document_id` yields exactly one
`error` message. -/
theorem c3_ws_session_shape_witness :
    pyStrip "" = ""
    ∧ handle_query_ws (WsReceive.got "" "q") sampleStore denoOkEnv cachedCfg
          (EngineOutcome.ok "a" [] []) ⟨0, 0⟩
        = [WsMsg.error "Both document_id and question are required"] :=
  ⟨by decide,
   (c3_ws_session_shape (WsReceive.got "" "q") sampleStore denoOkEnv cachedCfg
      (EngineOutcome.ok "a" [] []) ⟨0, 0⟩).2 "" "q" rfl (by decide)⟩
